import Mathlib

/-!
Verification of the GoTrust authentication core against its specification.

The Go source is shallowly embedded: machine time is modelled as `Int`
Unix seconds, a signed JWT is modelled as its header algorithm, its claim
map and the key under which its HMAC signature verifies (ideal-MAC model:
the signature verifies under a key iff the token was signed with that
key), and the in-process expiring key-value store is an association list
from keys to typed values with an absolute expiry instant (JSON
serialization is modelled as the identity on the stored record types,
which round-trip losslessly). Randomness and the ambient clock are passed
in as explicit arguments. External collaborators (the user store, the
bcrypt verify primitive, session-creation outcomes) are passed in as
function or value parameters, mirroring their injection in the source.
-/

namespace GoTrust

/-- Claim values as they occur in a jwt.MapClaims map: JSON strings or
JSON numbers (Unix timestamps). -/
inductive JVal where
  | str (s : String)
  | num (n : Int)
deriving DecidableEq, Repr

/-- A JWT claim map: association list from claim name to value. -/
abbrev ClaimMap := List (String × JVal)

/-- Lookup of a claim by name (first binding wins, as in a Go map whose
entries are distinct). -/
def lookupClaim (m : ClaimMap) (k : String) : Option JVal :=
  (m.find? (fun e => e.1 == k)).map (fun e => e.2)

/-- Go type assertion claims[k].(string) with the error ignored: yields
the string value, or the empty string when the claim is absent or not a
string. -/
def claimStr (m : ClaimMap) (k : String) : String :=
  match lookupClaim m k with
  | some (.str s) => s
  | _ => ""

/-- Numeric claim lookup, used for the registered time claims. -/
def claimNum (m : ClaimMap) (k : String) : Option Int :=
  match lookupClaim m k with
  | some (.num n) => some n
  | _ => none

/-- A serialized signed token, modelled as its header algorithm, claim
map, and the key under which its signature verifies. -/
structure Token where
  alg : String
  claims : ClaimMap
  sigKey : String
deriving DecidableEq, Repr

/-- TokenClaims from the source (models.go): the identity payload of an
access token. -/
structure TokenClaims where
  UserID : String
  Email : String
  Name : String
  Provider : String
deriving DecidableEq, Repr

/-- JWTManager from the source: signing secret, issuer, and configured
access-token lifetime (seconds). -/
structure JWTManager where
  secret : String
  issuer : String
  expiresIn : Int
deriving DecidableEq, Repr

/-- The HMAC signing-method family accepted by the keyfunc in
ValidateToken and ValidateRefreshToken (jwt.SigningMethodHMAC covers
HS256, HS384 and HS512). -/
def isHMACAlg (alg : String) : Bool :=
  alg == "HS256" || alg == "HS384" || alg == "HS512"

/-- Registered-claims time validation performed by jwt.Parse (golang-jwt
v5 default validator): exp and nbf are each checked when present. The
expiry check is strict (verifyExpiresAt requires now before exp, so a
token is already rejected at the instant now = exp), and the nbf check
accepts now at or after nbf. The iat claim is not validated by the
default parser (that would require the WithIssuedAt option, which the
source does not pass). -/
def claimsTimeValid (m : ClaimMap) (now : Int) : Bool :=
  (match claimNum m "exp" with
   | some e => decide (now < e)
   | none => true) &&
  (match claimNum m "nbf" with
   | some n => decide (n ≤ now)
   | none => true)

/-- jwt.Parse with a keyfunc that insists on the HMAC family and returns
the manager secret: rejects a non-HMAC algorithm, a signature that does
not verify under the secret, and invalid time claims; otherwise yields
the claim map. -/
def jwtParse (secret : String) (t : Token) (now : Int) : Except String ClaimMap :=
  if !isHMACAlg t.alg then
    .error ("unexpected signing method: " ++ t.alg)
  else if t.sigKey != secret then
    .error "signature is invalid"
  else if !claimsTimeValid t.claims now then
    .error "token has invalid claims"
  else
    .ok t.claims

/-- JWTManager.GenerateToken from the source: builds the access-token
claim map and signs it with HS256 under the manager secret. -/
def JWTManager.GenerateToken (j : JWTManager) (claims : TokenClaims) (now : Int) : Token :=
  { alg := "HS256"
    claims :=
      [("user_id", .str claims.UserID),
       ("email", .str claims.Email),
       ("name", .str claims.Name),
       ("provider", .str claims.Provider),
       ("iss", .str j.issuer),
       ("sub", .str claims.UserID),
       ("iat", .num now),
       ("exp", .num (now + j.expiresIn)),
       ("nbf", .num now)]
    sigKey := j.secret }

/-- JWTManager.ValidateToken from the source: parses and verifies the
token, extracts the string claims, requires a non-empty user id, and
returns the normalized TokenClaims. -/
def JWTManager.ValidateToken (j : JWTManager) (t : Token) (now : Int) :
    Except String TokenClaims :=
  match jwtParse j.secret t now with
  | .error e => .error ("failed to parse token: " ++ e)
  | .ok claims =>
    let userID := claimStr claims "user_id"
    let email := claimStr claims "email"
    let name := claimStr claims "name"
    let provider := claimStr claims "provider"
    if userID = "" then
      .error "user_id not found in token"
    else
      .ok { UserID := userID, Email := email, Name := name, Provider := provider }

/-- JWTManager.GenerateRefreshToken from the source: builds the refresh
claim map, whose expiry is fixed at 30 days (2592000 seconds) after
issuance, and signs it with HS256 under the manager secret. -/
def JWTManager.GenerateRefreshToken (j : JWTManager) (userID : String) (now : Int) : Token :=
  { alg := "HS256"
    claims :=
      [("user_id", .str userID),
       ("type", .str "refresh"),
       ("iss", .str j.issuer),
       ("sub", .str userID),
       ("iat", .num now),
       ("exp", .num (now + 30 * 24 * 3600))]
    sigKey := j.secret }

/-- JWTManager.ValidateRefreshToken from the source: parses and verifies
the token, requires the type discriminator to equal "refresh" and a
non-empty user id, and returns the user id. -/
def JWTManager.ValidateRefreshToken (j : JWTManager) (t : Token) (now : Int) :
    Except String String :=
  match jwtParse j.secret t now with
  | .error e => .error ("failed to parse refresh token: " ++ e)
  | .ok claims =>
    let tokenType := claimStr claims "type"
    if tokenType ≠ "refresh" then
      .error "not a refresh token"
    else
      let userID := claimStr claims "user_id"
      if userID = "" then
        .error "user_id not found in refresh token"
      else
        .ok userID

/-- MemorySessionStore from the source (session.go), specialized to the
type of record it stores: a mutex-guarded map from key to serialized
value plus absolute expiry instant, here an association list from key to
the typed record and its expiry (Unix seconds). -/
structure MemorySessionStore (α : Type) where
  store : List (String × α × Int)
deriving DecidableEq, Repr

/-- Map lookup in the backing store (keys are distinct; first binding
wins). -/
def MemorySessionStore.lookup (m : MemorySessionStore α) (key : String) :
    Option (α × Int) :=
  (m.store.find? (fun e => e.1 == key)).map (fun e => e.2)

/-- MemorySessionStore.Delete from the source: removes the bindings for
a key; a missing key is a no-op. -/
def MemorySessionStore.Delete (m : MemorySessionStore α) (key : String) :
    MemorySessionStore α :=
  { store := m.store.filter (fun e => !(e.1 == key)) }

/-- MemorySessionStore.Set from the source: marshals the value and
stores it under the key with expiry now plus the ttl, replacing any
previous binding (Go map assignment). -/
def MemorySessionStore.Set (m : MemorySessionStore α) (key : String) (value : α)
    (expiration : Int) (now : Int) : MemorySessionStore α :=
  { store := (key, value, now + expiration) :: (m.Delete key).store }

/-- MemorySessionStore.Get from the source: a missing key fails as
"key not found"; a key whose store-level expiry has passed is lazily
deleted and fails as "key expired"; otherwise the unmarshalled value is
returned. The possibly mutated store is returned alongside. -/
def MemorySessionStore.Get (m : MemorySessionStore α) (key : String) (now : Int) :
    Except String α × MemorySessionStore α :=
  match m.lookup key with
  | none => (.error "key not found", m)
  | some (v, expiresAt) =>
    if now > expiresAt then (.error "key expired", m.Delete key)
    else (.ok v, m)

/-- OAuthState from the source (models.go). -/
structure OAuthState where
  State : String
  RedirectURI : String
  ExpiresAt : Int
deriving DecidableEq, Repr

/-- SessionData from the source (models.go). -/
structure SessionData where
  UserID : String
  Email : String
  CreatedAt : Int
  ExpiresAt : Int
deriving DecidableEq, Repr

/-- OAuthProvider from the source: a closed set of provider tags. -/
inductive OAuthProvider where
  | google
  | github
  | local
deriving DecidableEq, Repr

/-- String value of a provider tag (the source represents providers as
strings). -/
def OAuthProvider.name : OAuthProvider → String
  | .google => "google"
  | .github => "github"
  | .local => "local"

/-- Config from the source (config.go), restricted to the fields the
modelled operations read. Durations are in seconds. -/
structure Config where
  GoogleClientID : String
  GoogleClientSecret : String
  GoogleRedirectURI : String
  GoogleScopes : List String
  GitHubClientID : String
  GitHubClientSecret : String
  GitHubRedirectURI : String
  GitHubScopes : List String
  OAuthStateExpiration : Int
  JWTExpiration : Int
deriving DecidableEq, Repr

/-- Uppercase hexadecimal digit, for percent-encoding. -/
def hexDigit (n : Nat) : Char :=
  if n < 10 then Char.ofNat (48 + n) else Char.ofNat (55 + n)

/-- Go url.QueryEscape: unreserved bytes (alphanumerics and - _ . ~) are
kept, a space becomes +, every other byte of the UTF-8 encoding becomes
%XX with uppercase hex. -/
def queryEscape (s : String) : String :=
  String.join (s.toUTF8.toList.map (fun b =>
    let n := b.toNat
    let c := Char.ofNat n
    if n < 128 && (c.isAlphanum || c == '-' || c == '_' || c == '.' || c == '~') then
      String.mk [c]
    else if n == 32 then "+"
    else String.mk ['%', hexDigit (n / 16), hexDigit (n % 16)]))

/-- Go url.Values.Encode over single-valued parameters: keys sorted,
each pair rendered escaped-key=escaped-value, joined with ampersands. -/
def valuesEncode (params : List (String × String)) : String :=
  String.intercalate "&"
    ((params.mergeSort (fun a b => decide (a.1 ≤ b.1))).map
      (fun p => queryEscape p.1 ++ "=" ++ queryEscape p.2))

/-- OAuthManager from the source. The source field statePrefix (value
"oauth:state") is rendered here as statePfx because its name collides
with a Lean keyword. -/
structure OAuthManager where
  config : Config
  statePfx : String
deriving DecidableEq, Repr

/-- Namespaced store key for an OAuth state value (fmt.Sprintf of
statePrefix, a colon and the state). -/
def OAuthManager.stateKey (o : OAuthManager) (state : String) : String :=
  o.statePfx ++ ":" ++ state

/-- OAuthManager.getGoogleAuthURL from the source: fails when the Google
client id is not configured, otherwise builds the Google authorization
URL. -/
def OAuthManager.getGoogleAuthURL (o : OAuthManager) (state : String) :
    Except String String :=
  if o.config.GoogleClientID = "" then
    .error "Google OAuth not configured"
  else
    .ok ("https://accounts.google.com/o/oauth2/auth?" ++
      valuesEncode
        [("client_id", o.config.GoogleClientID),
         ("redirect_uri", o.config.GoogleRedirectURI),
         ("scope", String.intercalate " " o.config.GoogleScopes),
         ("response_type", "code"),
         ("state", state),
         ("access_type", "offline")])

/-- OAuthManager.getGitHubAuthURL from the source: fails when the GitHub
client id is not configured, otherwise builds the GitHub authorization
URL. -/
def OAuthManager.getGitHubAuthURL (o : OAuthManager) (state : String) :
    Except String String :=
  if o.config.GitHubClientID = "" then
    .error "GitHub OAuth not configured"
  else
    .ok ("https://github.com/login/oauth/authorize?" ++
      valuesEncode
        [("client_id", o.config.GitHubClientID),
         ("redirect_uri", o.config.GitHubRedirectURI),
         ("scope", String.intercalate " " o.config.GitHubScopes),
         ("state", state)])

/-- OAuthManager.GetAuthURL from the source: stores the freshly created
OAuthState record under its namespaced key FIRST, then dispatches on the
provider. The random state value and the clock are explicit arguments.
The store Set cannot fail in the memory backend, so the Go error branch
of Set is vacuous here. Returns the result and the updated store. -/
def OAuthManager.GetAuthURL (o : OAuthManager) (s : MemorySessionStore OAuthState)
    (provider : OAuthProvider) (redirectURI : String) (state : String) (now : Int) :
    Except String String × MemorySessionStore OAuthState :=
  let stateData : OAuthState :=
    { State := state, RedirectURI := redirectURI
      ExpiresAt := now + o.config.OAuthStateExpiration }
  let key := o.stateKey state
  let s1 := s.Set key stateData o.config.OAuthStateExpiration now
  match provider with
  | .google => (o.getGoogleAuthURL state, s1)
  | .github => (o.getGitHubAuthURL state, s1)
  | .local => (.error ("unsupported provider: " ++ OAuthProvider.name .local), s1)

/-- OAuthManager.validateState from the source: a failed store lookup
(absent or backend-expired key) fails as "state not found or expired"
without touching the record; a found record is deleted before its own
expiry field is checked; a found record whose expiry has passed fails as
"state expired"; otherwise the stored redirect URI is returned. -/
def OAuthManager.validateState (o : OAuthManager) (s : MemorySessionStore OAuthState)
    (state : String) (now : Int) :
    Except String String × MemorySessionStore OAuthState :=
  let key := o.stateKey state
  match s.Get key now with
  | (.error _, s1) => (.error "state not found or expired", s1)
  | (.ok stateData, s1) =>
    let s2 := s1.Delete key
    if now > stateData.ExpiresAt then (.error "state expired", s2)
    else (.ok stateData.RedirectURI, s2)

/-- OAuthUserInfo from the source (models.go): the canonical profile
shape providers are normalized into. -/
structure OAuthUserInfo where
  ID : String
  Email : String
  Name : String
  AvatarURL : String
  Provider : String
deriving DecidableEq, Repr

/-- OAuthManager.ValidateCallback from the source: validates (and
thereby consumes) the state first, then dispatches to the provider
code-for-profile exchange. The network exchange (handleGoogleCallback
or handleGitHubCallback applied to the authorization code) is an
injected collaborator here, since it is HTTP; it never touches the
store. Returns the user info and stored redirect URI, and the updated
store. -/
def OAuthManager.ValidateCallback (o : OAuthManager)
    (exchange : OAuthProvider → String → Except String OAuthUserInfo)
    (s : MemorySessionStore OAuthState) (provider : OAuthProvider)
    (state code : String) (now : Int) :
    Except String (OAuthUserInfo × String) × MemorySessionStore OAuthState :=
  match o.validateState s state now with
  | (.error e, s1) => (.error ("invalid state: " ++ e), s1)
  | (.ok redirectURI, s1) =>
    match provider with
    | .google =>
      match exchange .google code with
      | .error e => (.error e, s1)
      | .ok userInfo => (.ok (userInfo, redirectURI), s1)
    | .github =>
      match exchange .github code with
      | .error e => (.error e, s1)
      | .ok userInfo => (.ok (userInfo, redirectURI), s1)
    | .local => (.error ("unsupported provider: " ++ OAuthProvider.name .local), s1)

/-- SessionManager from the source. The source field is named prefix
(value "session"); it is rendered here as pfx because its name collides
with a Lean keyword. -/
structure SessionManager where
  pfx : String
deriving DecidableEq, Repr

/-- Namespaced store key for a session id. -/
def SessionManager.key (sm : SessionManager) (sessionID : String) : String :=
  sm.pfx ++ ":" ++ sessionID

/-- SessionManager.CreateSession from the source: writes a SessionData
record expiring after the duration under the namespaced random session
id and returns the id. The random id and the clock are explicit
arguments. -/
def SessionManager.CreateSession (sm : SessionManager)
    (s : MemorySessionStore SessionData) (userID email : String)
    (duration : Int) (sessionID : String) (now : Int) :
    String × MemorySessionStore SessionData :=
  let sessionData : SessionData :=
    { UserID := userID, Email := email, CreatedAt := now, ExpiresAt := now + duration }
  (sessionID, s.Set (sm.key sessionID) sessionData duration now)

/-- SessionManager.GetSession from the source: a failed store lookup is
wrapped as "session not found: " plus the store error; a found record
whose stored expiry has passed is deleted and fails as "session
expired"; otherwise the record is returned. -/
def SessionManager.GetSession (sm : SessionManager)
    (s : MemorySessionStore SessionData) (sessionID : String) (now : Int) :
    Except String SessionData × MemorySessionStore SessionData :=
  let key := sm.key sessionID
  match s.Get key now with
  | (.error e, s1) => (.error ("session not found: " ++ e), s1)
  | (.ok sessionData, s1) =>
    if now > sessionData.ExpiresAt then
      (.error "session expired", s1.Delete key)
    else
      (.ok sessionData, s1)

/-- SessionManager.InvalidateSession from the source: unconditional
delete of the namespaced key. -/
def SessionManager.InvalidateSession (sm : SessionManager)
    (s : MemorySessionStore SessionData) (sessionID : String) :
    MemorySessionStore SessionData :=
  s.Delete (sm.key sessionID)

/-- User from the source (models.go). -/
structure User where
  ID : String
  Email : String
  Name : String
  AvatarURL : String
  Provider : String
  CreatedAt : Int
  UpdatedAt : Int
deriving DecidableEq, Repr

/-- AuthResponse from the source (models.go); tokens are carried as the
modelled Token values. -/
structure AuthResponse where
  user : User
  accessToken : Token
  refreshToken : Token
  expiresIn : Int
deriving DecidableEq, Repr

/-- AuthService.generateAuthResponse from the source: generates the
access token from the user identity, generates the refresh token from
the user id, attempts session creation whose outcome is only logged
(the sessionResult parameter stands for the outcome of
sessionManager.CreateSession, injected here because the clock and id
randomness are external), and returns the composite response. -/
def AuthService.generateAuthResponse (j : JWTManager) (cfgJWTExpiration : Int)
    (sessionResult : Except String String) (user : User) (now : Int) :
    Except String AuthResponse :=
  let claims : TokenClaims :=
    { UserID := user.ID, Email := user.Email, Name := user.Name, Provider := user.Provider }
  let accessToken := j.GenerateToken claims now
  let refreshToken := j.GenerateRefreshToken user.ID now
  match sessionResult with
  | .error _ =>
    .ok { user := user, accessToken := accessToken
          refreshToken := refreshToken, expiresIn := cfgJWTExpiration }
  | .ok _ =>
    .ok { user := user, accessToken := accessToken
          refreshToken := refreshToken, expiresIn := cfgJWTExpiration }

/-- AuthService.SignIn from the source: the user-store lookup
(getUserByEmail, returning the user and its password hash) and the
bcrypt verify primitive are the injected collaborators; any lookup or
verify failure collapses to the one generic "invalid credentials"
error, and success delegates to generateAuthResponse. -/
def AuthService.SignIn (verify : String → String → Bool)
    (getUserByEmail : String → Except String (User × String))
    (j : JWTManager) (cfgJWTExpiration : Int)
    (sessionResult : Except String String)
    (email password : String) (now : Int) : Except String AuthResponse :=
  match getUserByEmail email with
  | .error _ => .error "invalid credentials"
  | .ok (user, hashedPassword) =>
    if verify hashedPassword password then
      AuthService.generateAuthResponse j cfgJWTExpiration sessionResult user now
    else
      .error "invalid credentials"

/-- Boolean error test for Except results. -/
def isError : Except ε α → Bool
  | .error _ => true
  | .ok _ => false

/-- Decidable equality of Except results, for concrete evaluations. -/
instance [DecidableEq ε] [DecidableEq α] : DecidableEq (Except ε α) := fun x y =>
  match x, y with
  | .error a, .error b =>
    if h : a = b then .isTrue (h ▸ rfl)
    else .isFalse (fun hc => h (Except.error.inj hc))
  | .error _, .ok _ => .isFalse (fun hc => Except.noConfusion hc)
  | .ok _, .error _ => .isFalse (fun hc => Except.noConfusion hc)
  | .ok a, .ok b =>
    if h : a = b then .isTrue (h ▸ rfl)
    else .isFalse (fun hc => h (Except.ok.inj hc))

/-- Sample manager for concrete evaluations. -/
def sampleJWT : JWTManager :=
  { secret := "0123456789abcdef0123456789abcdef", issuer := "gotrust", expiresIn := 86400 }

/-- Sample access-token claims. -/
def sampleClaims : TokenClaims :=
  { UserID := "u1", Email := "a@b.com", Name := "Alice", Provider := "local" }

/-- Sample configuration with neither OAuth provider configured
(empty client ids, as with the source defaults when the environment
variables are unset). -/
def sampleConfig : Config :=
  { GoogleClientID := ""
    GoogleClientSecret := ""
    GoogleRedirectURI := "http://localhost:4000/auth/google/callback"
    GoogleScopes := ["email", "profile"]
    GitHubClientID := ""
    GitHubClientSecret := ""
    GitHubRedirectURI := "http://localhost:4000/auth/github/callback"
    GitHubScopes := ["user:email"]
    OAuthStateExpiration := 600
    JWTExpiration := 86400 }

/-- Sample OAuth manager. -/
def sampleOAuth : OAuthManager :=
  { config := sampleConfig, statePfx := "oauth:state" }

/-- Sample store holding one pending OAuth state, live until 700 at
both the record and the backend level. -/
def sampleStateStore : MemorySessionStore OAuthState :=
  ⟨[("oauth:state:abc",
     { State := "abc", RedirectURI := "http://app/cb", ExpiresAt := 700 }, 700)]⟩

/-- Store holding one OAuth state whose record expiry (5) has passed
while the backend entry is still live (expiry 100): the record is still
found by a lookup at time 10. -/
def staleStateStore : MemorySessionStore OAuthState :=
  ⟨[("oauth:state:s1",
     { State := "s1", RedirectURI := "http://app/cb", ExpiresAt := 5 }, 100)]⟩

/-- Sample session manager with the source default namespace. -/
def sampleSessions : SessionManager := ⟨"session"⟩

/-- Store holding one session whose record expiry (5) has passed while
the backend entry is still live (expiry 100). -/
def staleSessionStore : MemorySessionStore SessionData :=
  ⟨[("session:sid1", { UserID := "u1", Email := "a@b.com", CreatedAt := 0, ExpiresAt := 5 }, 100)]⟩

/-- Sample user record. -/
def sampleUser : User :=
  { ID := "u1", Email := "a@b.com", Name := "Alice", AvatarURL := ""
    Provider := "local", CreatedAt := 0, UpdatedAt := 0 }

/-!
Helper lemmas shared by the claim theorems below.
-/

theorem lookup_Delete_self (m : MemorySessionStore α) (key : String) :
    (m.Delete key).lookup key = none := by
  unfold MemorySessionStore.Delete MemorySessionStore.lookup
  rw [List.find?_eq_none.mpr]
  · rfl
  · intro x hx
    have hpx := List.of_mem_filter hx
    simp at hpx
    simp [hpx]

theorem lookup_Set_self (m : MemorySessionStore α) (key : String) (v : α) (ttl now : Int) :
    (m.Set key v ttl now).lookup key = some (v, now + ttl) := by
  unfold MemorySessionStore.Set MemorySessionStore.lookup
  simp [List.find?_cons_of_pos]

theorem Get_absent (m : MemorySessionStore α) (key : String) (now : Int)
    (h : m.lookup key = none) :
    m.Get key now = (.error "key not found", m) := by
  unfold MemorySessionStore.Get
  rw [h]

theorem Get_live (m : MemorySessionStore α) (key : String) (now : Int) (v : α) (e : Int)
    (h : m.lookup key = some (v, e)) (hle : now ≤ e) :
    m.Get key now = (.ok v, m) := by
  unfold MemorySessionStore.Get
  rw [h]
  simp [not_lt.mpr hle]

theorem Get_store_expired (m : MemorySessionStore α) (key : String) (now : Int) (v : α) (e : Int)
    (h : m.lookup key = some (v, e)) (hgt : now > e) :
    m.Get key now = (.error "key expired", m.Delete key) := by
  unfold MemorySessionStore.Get
  rw [h]
  simp [hgt]

theorem validateState_absent (o : OAuthManager) (s : MemorySessionStore OAuthState)
    (state : String) (now : Int) (h : s.lookup (o.stateKey state) = none) :
    o.validateState s state now = (.error "state not found or expired", s) := by
  unfold OAuthManager.validateState
  dsimp only
  rw [Get_absent s (o.stateKey state) now h]

theorem validateState_store_expired (o : OAuthManager) (s : MemorySessionStore OAuthState)
    (state : String) (now : Int) (v : OAuthState) (e : Int)
    (h : s.lookup (o.stateKey state) = some (v, e)) (hgt : now > e) :
    o.validateState s state now =
      (.error "state not found or expired", s.Delete (o.stateKey state)) := by
  unfold OAuthManager.validateState
  dsimp only
  rw [Get_store_expired s (o.stateKey state) now v e h hgt]

theorem validateState_found_expired (o : OAuthManager) (s : MemorySessionStore OAuthState)
    (state : String) (now : Int) (v : OAuthState) (e : Int)
    (h : s.lookup (o.stateKey state) = some (v, e)) (hle : now ≤ e)
    (hexp : now > v.ExpiresAt) :
    o.validateState s state now = (.error "state expired", s.Delete (o.stateKey state)) := by
  unfold OAuthManager.validateState
  dsimp only
  rw [Get_live s (o.stateKey state) now v e h hle]
  simp [hexp]

theorem validateState_ok (o : OAuthManager) (s : MemorySessionStore OAuthState)
    (state : String) (now : Int) (v : OAuthState) (e : Int)
    (h : s.lookup (o.stateKey state) = some (v, e)) (hle : now ≤ e)
    (hok : ¬ now > v.ExpiresAt) :
    o.validateState s state now = (.ok v.RedirectURI, s.Delete (o.stateKey state)) := by
  unfold OAuthManager.validateState
  dsimp only
  rw [Get_live s (o.stateKey state) now v e h hle]
  simp [hok]

theorem validateState_snd_of_found (o : OAuthManager) (s : MemorySessionStore OAuthState)
    (state : String) (now : Int) (v : OAuthState) (e : Int)
    (h : s.lookup (o.stateKey state) = some (v, e)) :
    (o.validateState s state now).snd = s.Delete (o.stateKey state) := by
  by_cases hgt : now > e
  · rw [validateState_store_expired o s state now v e h hgt]
  · by_cases hexp : now > v.ExpiresAt
    · rw [validateState_found_expired o s state now v e h (not_lt.mp hgt) hexp]
    · rw [validateState_ok o s state now v e h (not_lt.mp hgt) hexp]

theorem ValidateCallback_snd (o : OAuthManager)
    (exchange : OAuthProvider → String → Except String OAuthUserInfo)
    (s : MemorySessionStore OAuthState) (provider : OAuthProvider)
    (state code : String) (now : Int) :
    (o.ValidateCallback exchange s provider state code now).snd =
      (o.validateState s state now).snd := by
  unfold OAuthManager.ValidateCallback
  rcases hvs : o.validateState s state now with ⟨r, s1⟩
  cases r
  · rfl
  · cases provider
    · dsimp only
      cases exchange .google code <;> rfl
    · dsimp only
      cases exchange .github code <;> rfl
    · rfl

theorem ValidateCallback_invalid_state (o : OAuthManager)
    (exchange : OAuthProvider → String → Except String OAuthUserInfo)
    (s : MemorySessionStore OAuthState) (provider : OAuthProvider)
    (state code : String) (now : Int) (msg : String) (s1 : MemorySessionStore OAuthState)
    (h : o.validateState s state now = (.error msg, s1)) :
    o.ValidateCallback exchange s provider state code now =
      (.error ("invalid state: " ++ msg), s1) := by
  unfold OAuthManager.ValidateCallback
  rw [h]

theorem GetSession_absent (sm : SessionManager) (st : MemorySessionStore SessionData)
    (sessionID : String) (now : Int) (h : st.lookup (sm.key sessionID) = none) :
    sm.GetSession st sessionID now = (.error "session not found: key not found", st) := by
  unfold SessionManager.GetSession
  dsimp only
  rw [Get_absent st (sm.key sessionID) now h]
  rfl

theorem GetSession_store_expired (sm : SessionManager) (st : MemorySessionStore SessionData)
    (sessionID : String) (now : Int) (d : SessionData) (e : Int)
    (h : st.lookup (sm.key sessionID) = some (d, e)) (hgt : now > e) :
    sm.GetSession st sessionID now =
      (.error "session not found: key expired", st.Delete (sm.key sessionID)) := by
  unfold SessionManager.GetSession
  dsimp only
  rw [Get_store_expired st (sm.key sessionID) now d e h hgt]
  rfl

theorem GetSession_found_expired (sm : SessionManager) (st : MemorySessionStore SessionData)
    (sessionID : String) (now : Int) (d : SessionData) (e : Int)
    (h : st.lookup (sm.key sessionID) = some (d, e)) (hle : now ≤ e)
    (hexp : now > d.ExpiresAt) :
    sm.GetSession st sessionID now =
      (.error "session expired", st.Delete (sm.key sessionID)) := by
  unfold SessionManager.GetSession
  dsimp only
  rw [Get_live st (sm.key sessionID) now d e h hle]
  simp [hexp]

theorem GetSession_ok (sm : SessionManager) (st : MemorySessionStore SessionData)
    (sessionID : String) (now : Int) (d : SessionData) (e : Int)
    (h : st.lookup (sm.key sessionID) = some (d, e)) (hle : now ≤ e)
    (hok : ¬ now > d.ExpiresAt) :
    sm.GetSession st sessionID now = (.ok d, st) := by
  unfold SessionManager.GetSession
  dsimp only
  rw [Get_live st (sm.key sessionID) now d e h hle]
  simp [hok]

theorem jwtParse_ok (secret : String) (t : Token) (now : Int)
    (halg : isHMACAlg t.alg = true) (hkey : t.sigKey = secret)
    (htime : claimsTimeValid t.claims now = true) :
    jwtParse secret t now = .ok t.claims := by
  unfold jwtParse
  simp [halg, hkey, htime]

theorem jwtParse_time_invalid (secret : String) (t : Token) (now : Int)
    (halg : isHMACAlg t.alg = true) (hkey : t.sigKey = secret)
    (htime : claimsTimeValid t.claims now = false) :
    jwtParse secret t now = .error "token has invalid claims" := by
  unfold jwtParse
  simp [halg, hkey, htime]

theorem timeValid_generateToken (j : JWTManager) (claims : TokenClaims) (now t : Int)
    (h1 : now ≤ t) (h2 : t < now + j.expiresIn) :
    claimsTimeValid ((j.GenerateToken claims now).claims) t = true := by
  simp [claimsTimeValid, claimNum, lookupClaim, JWTManager.GenerateToken, List.find?]
  omega

theorem timeValid_generateRefresh (j : JWTManager) (userID : String) (now t : Int)
    (h2 : t < now + 30 * 24 * 3600) :
    claimsTimeValid ((j.GenerateRefreshToken userID now).claims) t = true := by
  simp [claimsTimeValid, claimNum, lookupClaim, JWTManager.GenerateRefreshToken, List.find?]
  omega

/-- C1 counterexample: the claim that ValidateToken rejects every
refresh token is false. A refresh token generated for user u1 is
accepted by ValidateToken (the access validator) while unexpired,
because ValidateToken never inspects the type discriminator and the
refresh claim map carries a non-empty user id; the email, name and
provider claims come back empty. -/
theorem C1_counterexample_refresh_accepted_by_access_validator :
    JWTManager.ValidateToken sampleJWT
      (JWTManager.GenerateRefreshToken sampleJWT "u1" 0) 0 =
      .ok { UserID := "u1", Email := "", Name := "", Provider := "" } := rfl

/-- C1 (amended): the type discriminator is enforced in one direction
only. Every access token produced by GenerateToken is rejected by
ValidateRefreshToken (its claim map has no type claim), but a refresh
token produced by GenerateRefreshToken for a non-empty user id is
accepted by ValidateToken at any validation time from its issued-at
until strictly before its 30-day expiry, yielding claims with empty
email, name and provider. -/
theorem C1_type_discriminator_refresh_direction_only
    (j : JWTManager) (claims : TokenClaims) (userID : String) (now t tg : Int)
    (huid : userID ≠ "") (_h1 : now ≤ t) (h2 : t < now + 30 * 24 * 3600) :
    isError (j.ValidateRefreshToken (j.GenerateToken claims now) tg) = true ∧
    j.ValidateToken (j.GenerateRefreshToken userID now) t =
      .ok { UserID := userID, Email := "", Name := "", Provider := "" } := by
  constructor
  · unfold JWTManager.ValidateRefreshToken
    cases htime : claimsTimeValid ((j.GenerateToken claims now).claims) tg with
    | false =>
      rw [jwtParse_time_invalid j.secret (j.GenerateToken claims now) tg rfl rfl htime]
      rfl
    | true =>
      rw [jwtParse_ok j.secret (j.GenerateToken claims now) tg rfl rfl htime]
      simp [claimStr, lookupClaim, JWTManager.GenerateToken, List.find?, isError]
  · unfold JWTManager.ValidateToken
    rw [jwtParse_ok j.secret (j.GenerateRefreshToken userID now) t rfl rfl
      (timeValid_generateRefresh j userID now t h2)]
    simp [claimStr, lookupClaim, JWTManager.GenerateRefreshToken, List.find?, huid]

/-- C1 witness: the amended theorem instantiated at the sample manager,
user u1, issuance time 0 and validation time 600. -/
theorem C1_witness :
    isError (sampleJWT.ValidateRefreshToken
      (sampleJWT.GenerateToken sampleClaims 0) 600) = true ∧
    sampleJWT.ValidateToken (sampleJWT.GenerateRefreshToken "u1" 0) 600 =
      .ok { UserID := "u1", Email := "", Name := "", Provider := "" } :=
  C1_type_discriminator_refresh_direction_only sampleJWT sampleClaims "u1" 0 600 600
    (by decide) (by decide) (by decide)

/-- C3: validating an access token right after generating it on the
same manager succeeds and returns exactly the input claims, for any
validation time from issued-at until strictly before expiry and any
non-empty user id. -/
theorem C3_access_token_roundtrip (j : JWTManager) (claims : TokenClaims) (now t : Int)
    (huid : claims.UserID ≠ "") (h1 : now ≤ t) (h2 : t < now + j.expiresIn) :
    j.ValidateToken (j.GenerateToken claims now) t = .ok claims := by
  unfold JWTManager.ValidateToken
  rw [jwtParse_ok j.secret (j.GenerateToken claims now) t rfl rfl
    (timeValid_generateToken j claims now t h1 h2)]
  simp [claimStr, lookupClaim, JWTManager.GenerateToken, List.find?, huid]

/-- C3 witness: the round trip instantiated at the sample manager and
claims, issuance time 0 and validation time 3600. -/
theorem C3_witness :
    sampleJWT.ValidateToken (sampleJWT.GenerateToken sampleClaims 0) 3600 =
      .ok sampleClaims :=
  C3_access_token_roundtrip sampleJWT sampleClaims 0 3600 (by decide) (by decide) (by decide)

/-- C8: the refresh-token expiry is issued-at plus exactly 30 days
(2592000 seconds) and does not depend on the configured access-token
lifetime (two managers differing only in that lifetime produce the
same refresh token), while the access-token expiry is issued-at plus
the configured lifetime. -/
theorem C8_refresh_window_fixed_30_days (secret issuer : String) (life1 life2 : Int)
    (userID : String) (claims : TokenClaims) (now : Int) :
    JWTManager.GenerateRefreshToken ⟨secret, issuer, life1⟩ userID now =
      JWTManager.GenerateRefreshToken ⟨secret, issuer, life2⟩ userID now ∧
    claimNum ((JWTManager.GenerateRefreshToken ⟨secret, issuer, life1⟩ userID now).claims)
      "exp" = some (now + 30 * 24 * 3600) ∧
    claimNum ((JWTManager.GenerateRefreshToken ⟨secret, issuer, life1⟩ userID now).claims)
      "iat" = some now ∧
    claimNum ((JWTManager.GenerateToken ⟨secret, issuer, life1⟩ claims now).claims)
      "exp" = some (now + life1) ∧
    claimNum ((JWTManager.GenerateToken ⟨secret, issuer, life1⟩ claims now).claims)
      "iat" = some now :=
  ⟨rfl, rfl, rfl, rfl, rfl⟩

/-- C2: an OAuth state found in the store is consumed by the first
ValidateCallback regardless of that attempt's outcome (store-level
expiry, record-level expiry, provider-exchange failure or success): the
record is gone from the resulting store, and a second ValidateCallback
with the same state value, with any provider, exchange behavior, code
and time, fails as state-not-found. -/
theorem C2_oauth_state_single_use (o : OAuthManager)
    (exchange exchange2 : OAuthProvider → String → Except String OAuthUserInfo)
    (s : MemorySessionStore OAuthState) (provider provider2 : OAuthProvider)
    (state code code2 : String) (now now2 : Int) (v : OAuthState) (e : Int)
    (h : s.lookup (o.stateKey state) = some (v, e)) :
    (o.ValidateCallback exchange s provider state code now).snd.lookup
      (o.stateKey state) = none ∧
    (o.ValidateCallback exchange2
        (o.ValidateCallback exchange s provider state code now).snd
        provider2 state code2 now2).fst =
      .error "invalid state: state not found or expired" := by
  have hsnd : (o.ValidateCallback exchange s provider state code now).snd =
      s.Delete (o.stateKey state) := by
    rw [ValidateCallback_snd, validateState_snd_of_found o s state now v e h]
  have hnone : (o.ValidateCallback exchange s provider state code now).snd.lookup
      (o.stateKey state) = none := by
    rw [hsnd]
    exact lookup_Delete_self _ _
  refine ⟨hnone, ?_⟩
  rw [ValidateCallback_invalid_state o exchange2 _ provider2 state code2 now2
    "state not found or expired" _ (validateState_absent o _ state now2 hnone)]
  rfl

/-- C2 witness: single use instantiated at the sample manager and the
sample store holding the pending state abc, with a provider exchange
that always fails, first callback at time 100 and replay at time
200. -/
theorem C2_witness :
    (sampleOAuth.ValidateCallback (fun _ _ => .error "exchange failed")
      sampleStateStore .google "abc" "code1" 100).snd.lookup
        (sampleOAuth.stateKey "abc") = none ∧
    (sampleOAuth.ValidateCallback (fun _ _ => .error "exchange failed")
        (sampleOAuth.ValidateCallback (fun _ _ => .error "exchange failed")
          sampleStateStore .google "abc" "code1" 100).snd
        .google "abc" "code1" 200).fst =
      .error "invalid state: state not found or expired" :=
  C2_oauth_state_single_use sampleOAuth (fun _ _ => .error "exchange failed")
    (fun _ _ => .error "exchange failed") sampleStateStore .google .google
    "abc" "code1" "code1" 100 200
    { State := "abc", RedirectURI := "http://app/cb", ExpiresAt := 700 } 700 rfl

/-- C4 counterexample: the claim that expiry is never reported
distinguishably from not-found is false. At time 10, validating state
s1, whose record (expiry 5) is still returned by the store (backend
expiry 100), yields the error "state expired", while validating the
unknown state s2 yields "state not found or expired"; the analogous
pair for sessions yields "session expired" versus "session not found:
key not found". -/
theorem C4_counterexample_expired_distinguishable_from_not_found :
    (sampleOAuth.validateState staleStateStore "s1" 10).fst = .error "state expired" ∧
    (sampleOAuth.validateState staleStateStore "s2" 10).fst =
      .error "state not found or expired" ∧
    (sampleOAuth.validateState staleStateStore "s1" 10).fst ≠
      (sampleOAuth.validateState staleStateStore "s2" 10).fst ∧
    (sampleSessions.GetSession staleSessionStore "sid1" 10).fst = .error "session expired" ∧
    (sampleSessions.GetSession staleSessionStore "sid2" 10).fst =
      .error "session not found: key not found" ∧
    (sampleSessions.GetSession staleSessionStore "sid1" 10).fst ≠
      (sampleSessions.GetSession staleSessionStore "sid2" 10).fst :=
  ⟨rfl, rfl, by decide, rfl, rfl, by decide⟩

/-- C4 (amended): a state whose backend entry is absent or
backend-expired produces the identical error "state not found or
expired", so store-level expiry is indistinguishable from not-found;
but a state or session record still returned by the store whose
recorded expiry has passed produces a distinct error ("state expired",
respectively "session expired") that differs from the not-found error
content. -/
theorem C4_expiry_error_reporting (o : OAuthManager) (s : MemorySessionStore OAuthState)
    (state1 state2 : String) (now : Int) (v : OAuthState) (e : Int)
    (sm : SessionManager) (st : MemorySessionStore SessionData)
    (sid : String) (d : SessionData) (e2 : Int) :
    (s.lookup (o.stateKey state1) = none →
      (o.validateState s state1 now).fst = .error "state not found or expired") ∧
    (s.lookup (o.stateKey state2) = some (v, e) → now > e →
      (o.validateState s state2 now).fst = .error "state not found or expired") ∧
    (s.lookup (o.stateKey state2) = some (v, e) → now ≤ e → now > v.ExpiresAt →
      (o.validateState s state2 now).fst = .error "state expired") ∧
    (st.lookup (sm.key sid) = some (d, e2) → now ≤ e2 → now > d.ExpiresAt →
      (sm.GetSession st sid now).fst = .error "session expired") ∧
    (st.lookup (sm.key sid) = none →
      (sm.GetSession st sid now).fst = .error "session not found: key not found") ∧
    ("state expired" : String) ≠ "state not found or expired" ∧
    ("session expired" : String) ≠ "session not found: key not found" := by
  refine ⟨?_, ?_, ?_, ?_, ?_, by decide, by decide⟩
  · intro h
    rw [validateState_absent o s state1 now h]
  · intro h hgt
    rw [validateState_store_expired o s state2 now v e h hgt]
  · intro h hle hexp
    rw [validateState_found_expired o s state2 now v e h hle hexp]
  · intro h hle hexp
    rw [GetSession_found_expired sm st sid now d e2 h hle hexp]
  · intro h
    rw [GetSession_absent sm st sid now h]

/-- C4 witness: the amended theorem instantiated at the stale stores at
time 10, exercising the record-expired branches for both the OAuth
state and the session. -/
theorem C4_witness :
    (sampleOAuth.validateState staleStateStore "s1" 10).fst = .error "state expired" ∧
    (sampleSessions.GetSession staleSessionStore "sid1" 10).fst =
      .error "session expired" := by
  have h := C4_expiry_error_reporting sampleOAuth staleStateStore "s9" "s1" 10
    { State := "s1", RedirectURI := "http://app/cb", ExpiresAt := 5 } 100
    sampleSessions staleSessionStore "sid1"
    { UserID := "u1", Email := "a@b.com", CreatedAt := 0, ExpiresAt := 5 } 100
  exact ⟨h.2.2.1 rfl (by decide) (by decide), h.2.2.2.1 rfl (by decide) (by decide)⟩

/-- C6 counterexample: the claim that an expired-but-still-present
session fails as not-found is false. At time 10, fetching session sid1,
whose record (expiry 5) is still returned by the store (backend expiry
100), fails with "session expired", which differs from both store-miss
error contents. -/
theorem C6_counterexample_expired_session_error_is_not_not_found :
    (sampleSessions.GetSession staleSessionStore "sid1" 10).fst =
      .error "session expired" ∧
    (sampleSessions.GetSession staleSessionStore "sid1" 10).fst ≠
      .error "session not found: key not found" ∧
    (sampleSessions.GetSession staleSessionStore "sid1" 10).fst ≠
      .error "session not found: key expired" :=
  ⟨rfl, by decide, by decide⟩

/-- C6 (amended): fetching a session whose stored record expiry has
passed while the backend entry is still live fails with the error
"session expired" (not the not-found error content) and deletes the
record from the store, so a subsequent GetSession for the same id at
any later time fails as not-found. -/
theorem C6_expired_session_deleted_then_not_found (sm : SessionManager)
    (st : MemorySessionStore SessionData) (sid : String) (now now2 : Int)
    (d : SessionData) (e : Int)
    (h : st.lookup (sm.key sid) = some (d, e)) (hle : now ≤ e)
    (hexp : now > d.ExpiresAt) :
    (sm.GetSession st sid now).fst = .error "session expired" ∧
    (sm.GetSession st sid now).snd.lookup (sm.key sid) = none ∧
    (sm.GetSession (sm.GetSession st sid now).snd sid now2).fst =
      .error "session not found: key not found" := by
  have hG := GetSession_found_expired sm st sid now d e h hle hexp
  have hnone : (sm.GetSession st sid now).snd.lookup (sm.key sid) = none := by
    rw [hG]
    exact lookup_Delete_self _ _
  refine ⟨by rw [hG], hnone, ?_⟩
  rw [GetSession_absent sm _ sid now2 hnone]

/-- C6 witness: the amended theorem instantiated at the stale session
store, first fetch at time 10 and second fetch at time 20. -/
theorem C6_witness :
    (sampleSessions.GetSession staleSessionStore "sid1" 10).fst =
      .error "session expired" ∧
    (sampleSessions.GetSession staleSessionStore "sid1" 10).snd.lookup
      (sampleSessions.key "sid1") = none ∧
    (sampleSessions.GetSession
        (sampleSessions.GetSession staleSessionStore "sid1" 10).snd "sid1" 20).fst =
      .error "session not found: key not found" :=
  C6_expired_session_deleted_then_not_found sampleSessions staleSessionStore "sid1" 10 20
    { UserID := "u1", Email := "a@b.com", CreatedAt := 0, ExpiresAt := 5 } 100
    rfl (by decide) (by decide)

/-- C7: validating a state value with no stored record fails as
state-not-found and leaves the store unchanged, and any other pending
state that is live at both the backend and the record level still
validates successfully on the resulting store. -/
theorem C7_unknown_state_leaves_store_unchanged (o : OAuthManager)
    (s : MemorySessionStore OAuthState) (state state2 : String) (now now2 : Int)
    (v : OAuthState) (e : Int)
    (habsent : s.lookup (o.stateKey state) = none)
    (h2 : s.lookup (o.stateKey state2) = some (v, e))
    (hlive : now2 ≤ e) (hrec : ¬ now2 > v.ExpiresAt) :
    o.validateState s state now = (.error "state not found or expired", s) ∧
    (o.validateState (o.validateState s state now).snd state2 now2).fst =
      .ok v.RedirectURI := by
  have h1 := validateState_absent o s state now habsent
  refine ⟨h1, ?_⟩
  rw [h1]
  dsimp only
  rw [validateState_ok o s state2 now2 v e h2 hlive hrec]

/-- C7 witness: a wrong state zzz at time 100 against the sample store
fails as not-found and does not consume the pending state abc, which
then validates successfully at time 100. -/
theorem C7_witness :
    sampleOAuth.validateState sampleStateStore "zzz" 100 =
      (.error "state not found or expired", sampleStateStore) ∧
    (sampleOAuth.validateState
        (sampleOAuth.validateState sampleStateStore "zzz" 100).snd "abc" 100).fst =
      .ok "http://app/cb" := by
  have h := C7_unknown_state_leaves_store_unchanged sampleOAuth sampleStateStore
    "zzz" "abc" 100 100
    { State := "abc", RedirectURI := "http://app/cb", ExpiresAt := 700 } 700
    rfl rfl (by decide) (by decide)
  exact ⟨h.1, h.2⟩

/-- C5: SignIn with an email that has no user in the store and SignIn
with an existing email but a password that fails hash verification
return errors with identical content, the single generic "invalid
credentials" error, for any user store, verify primitive, manager and
session outcome. -/
theorem C5_signin_uniform_error
    (verify : String → String → Bool)
    (lookup1 lookup2 : String → Except String (User × String))
    (j : JWTManager) (cfgExp : Int) (sess : Except String String)
    (email1 pw1 email2 pw2 : String) (now : Int)
    (u : User) (hash err : String)
    (hmiss : lookup1 email1 = .error err)
    (hfound : lookup2 email2 = .ok (u, hash))
    (hverify : verify hash pw2 = false) :
    AuthService.SignIn verify lookup1 j cfgExp sess email1 pw1 now =
      .error "invalid credentials" ∧
    AuthService.SignIn verify lookup2 j cfgExp sess email2 pw2 now =
      .error "invalid credentials" := by
  constructor
  · unfold AuthService.SignIn
    rw [hmiss]
  · unfold AuthService.SignIn
    rw [hfound]
    simp [hverify]

/-- C5 witness: a store with no user versus a store returning the
sample user with a hash the verifier rejects; both sign-in attempts
fail with the same error value. -/
theorem C5_witness :
    AuthService.SignIn (fun _ _ => false) (fun _ => .error "user not found")
      sampleJWT 86400 (.ok "sid1") "a@b.com" "pw123456" 0 =
      .error "invalid credentials" ∧
    AuthService.SignIn (fun _ _ => false) (fun _ => .ok (sampleUser, "h1"))
      sampleJWT 86400 (.ok "sid1") "a@b.com" "wrongpw" 0 =
      .error "invalid credentials" :=
  C5_signin_uniform_error (fun _ _ => false) (fun _ => .error "user not found")
    (fun _ => .ok (sampleUser, "h1")) sampleJWT 86400 (.ok "sid1")
    "a@b.com" "pw123456" "a@b.com" "wrongpw" 0 sampleUser "h1" "user not found"
    rfl rfl rfl

/-- C9: generateAuthResponse always returns the successful AuthResponse
carrying the freshly generated access and refresh tokens, whatever the
session-creation outcome was (token generation is total in this model,
matching the non-failing HMAC signing path); consequently SignIn, and
with it every path that ends in generateAuthResponse, returns the same
result under a failed session creation as under a successful one. -/
theorem C9_session_failure_nonfatal (j : JWTManager) (cfgExp : Int) (user : User)
    (now : Int) (errMsg sid : String) (sessionResult : Except String String)
    (verify : String → String → Bool)
    (getUserByEmail : String → Except String (User × String))
    (email password : String) :
    AuthService.generateAuthResponse j cfgExp sessionResult user now =
      .ok { user := user
            accessToken := j.GenerateToken
              { UserID := user.ID, Email := user.Email
                Name := user.Name, Provider := user.Provider } now
            refreshToken := j.GenerateRefreshToken user.ID now
            expiresIn := cfgExp } ∧
    AuthService.SignIn verify getUserByEmail j cfgExp (.error errMsg) email password now =
      AuthService.SignIn verify getUserByEmail j cfgExp (.ok sid) email password now := by
  constructor
  · cases sessionResult <;> rfl
  · unfold AuthService.SignIn
    cases hgl : getUserByEmail email with
    | error e => rfl
    | ok p =>
      obtain ⟨u2, hp⟩ := p
      dsimp only
      cases hv : verify hp password
      · simp [hv]
      · simp [hv]
        rfl

/-- C10: GetAuthURL writes the pending OAuthState record to the store
before the provider dispatch, so the resulting store contains the
record under its namespaced key for every provider argument, including
the error outcomes: an unsupported provider and a provider whose
client id is unconfigured both return an error while the store has
already been mutated. -/
theorem C10_getauthurl_stores_state_before_provider_check (o : OAuthManager)
    (s : MemorySessionStore OAuthState) (provider : OAuthProvider)
    (redirectURI state : String) (now : Int) :
    (o.GetAuthURL s provider redirectURI state now).snd.lookup (o.stateKey state) =
      some ({ State := state, RedirectURI := redirectURI
              ExpiresAt := now + o.config.OAuthStateExpiration },
            now + o.config.OAuthStateExpiration) ∧
    (provider = .local →
      (o.GetAuthURL s provider redirectURI state now).fst =
        .error "unsupported provider: local") ∧
    (provider = .google → o.config.GoogleClientID = "" →
      (o.GetAuthURL s provider redirectURI state now).fst =
        .error "Google OAuth not configured") ∧
    (provider = .github → o.config.GitHubClientID = "" →
      (o.GetAuthURL s provider redirectURI state now).fst =
        .error "GitHub OAuth not configured") := by
  refine ⟨?_, ?_, ?_, ?_⟩
  · cases provider <;>
      (unfold OAuthManager.GetAuthURL
       dsimp only
       exact lookup_Set_self s (o.stateKey state) _ _ now)
  · intro hp
    subst hp
    rfl
  · intro hp hc
    subst hp
    unfold OAuthManager.GetAuthURL OAuthManager.getGoogleAuthURL
    dsimp only
    simp [hc]
  · intro hp hc
    subst hp
    unfold OAuthManager.GetAuthURL OAuthManager.getGitHubAuthURL
    dsimp only
    simp [hc]

/-- C10 witness: with the sample configuration, whose Google client id
is empty, requesting a Google authorization URL at time 0 with state
xyz fails, yet the store afterwards contains the pending state record
expiring at 600. -/
theorem C10_witness :
    (sampleOAuth.GetAuthURL sampleStateStore .google "http://app/cb" "xyz" 0).snd.lookup
        (sampleOAuth.stateKey "xyz") =
      some ({ State := "xyz", RedirectURI := "http://app/cb", ExpiresAt := 600 }, 600) ∧
    (sampleOAuth.GetAuthURL sampleStateStore .google "http://app/cb" "xyz" 0).fst =
      .error "Google OAuth not configured" := by
  have h := C10_getauthurl_stores_state_before_provider_check sampleOAuth sampleStateStore
    .google "http://app/cb" "xyz" 0
  exact ⟨h.1, h.2.2.1 rfl rfl⟩

end GoTrust
